import Mathlib

/-
  Verification development for the Home Assistant Sonos display controller
  (src/main.py). The definitions below are a shallow embedding of the
  program: timestamps and brightness/volume values are rationals, network
  and filesystem effects are passed in explicitly as parameters, and the
  global mutable variables of the script become fields of explicit state
  records threaded through step functions.
-/

/-! ## Constants (src/main.py lines 51-125) -/

/-- Source: `LONG_PRESS_TIME = 0.6` (line 123). -/
def LONG_PRESS_TIME : ℚ := 0.6

/-- Source: `SLEEP_TIMEOUT = 60` (line 79). -/
def SLEEP_TIMEOUT : ℚ := 60

/-- Source: `MENU_ITEMS = [...]` (lines 70-74). -/
def MENU_ITEMS : List String := ["Select Speaker", "Brightness", "Exit Menu"]

/-- Source: `ALBUM_ART_IDLE = 0` (line 85). -/
def ALBUM_ART_IDLE : Nat := 0

/-- Source: `ALBUM_ART_DOWNLOADING = 1` (line 86). -/
def ALBUM_ART_DOWNLOADING : Nat := 1

/-- Source: `ALBUM_ART_READY = 2` (line 87). -/
def ALBUM_ART_READY : Nat := 2

/-- Source: `DEFAULT_BRIGHTNESS = 1.0` (line 113). -/
def DEFAULT_BRIGHTNESS : ℚ := 1.0

/-- Source: `MIN_BRIGHTNESS = 0.25` (line 115). -/
def MIN_BRIGHTNESS : ℚ := 0.25

/-- Source: `BRIGHTNESS_STEP = 0.05` (line 114). -/
def BRIGHTNESS_STEP : ℚ := 0.05

/-! ## Playback snapshots and the poll/redraw step (lines 1125-1133)

The JSON body returned by `GET /api/states/{entity}` is embedded as a
record of the fields the program reads in `draw_screen`. Python compares
the parsed dicts structurally with `!=`; the embedding compares records
with decidable equality. -/

/-- The playback-state fields of the JSON dict the program reads:
`state`, `attributes.friendly_name`, `attributes.media_artist`,
`attributes.media_title`, `attributes.volume_level`,
`attributes.media_album_name`, `attributes.entity_picture`. -/
structure PlaybackSnapshot where
  state : String
  friendly_name : String
  media_artist : String
  media_title : String
  volume_level : ℚ
  media_album_name : Option String
  entity_picture : Option String
deriving DecidableEq

/-- The body of the periodic poll in `main` (lines 1127-1132):
`new_state = get_sonos_state()`; if it is truthy and differs from
`current_state_data`, store it and call `draw_screen` (counted as one
redraw). Returns the new `current_state_data` and the number of redraws
performed. -/
def poll_update (current_state_data : Option PlaybackSnapshot)
    (new_state : Option PlaybackSnapshot) : Option PlaybackSnapshot × Nat :=
  match new_state with
  | none => (current_state_data, 0)
  | some s =>
      if some s = current_state_data then (current_state_data, 0)
      else (some s, 1)

/-- Concrete snapshot for the spec scenario: playing at volume 0.42. -/
def snapPlaying42 : PlaybackSnapshot :=
  { state := "playing", friendly_name := "Living Room", media_artist := "Artist",
    media_title := "Song", volume_level := 42/100,
    media_album_name := some "Album", entity_picture := some "/img.jpg" }

/-- The same snapshot with only the volume changed to 0.45. -/
def snapPlaying45 : PlaybackSnapshot :=
  { snapPlaying42 with volume_level := 45/100 }

/-! ## get_sonos_state (lines 137-156)

`get_sonos_state` returns `None` without issuing the states request when
the WiFi check fails or `current_speaker` is falsy. The WiFi check result
and the outcome of the HTTP request (when reached) are parameters; the
second component of the result records whether the states request was
issued. -/

/-- Python truthiness test `not current_speaker`: `None` and the empty
string are falsy. -/
def speakerFalsy : Option String → Bool
  | none => true
  | some s => s = ""

/-- `get_sonos_state` (lines 137-156): guard
`if not check_wifi_connection() or not current_speaker: return None`,
then one GET of `/api/states/{current_speaker}`; an exception during the
request or parse yields `None`. Result: (returned data, whether the
states request was issued). -/
def get_sonos_state (wifiOk : Bool) (current_speaker : Option String)
    (fetch : Option PlaybackSnapshot) : Option PlaybackSnapshot × Bool :=
  if ¬wifiOk ∨ speakerFalsy current_speaker then (none, false)
  else
    match fetch with
    | some d => (some d, true)
    | none => (none, true)

/-! ## call_ha_service (lines 158-219)

The retry loop: `retries = 3`; each iteration issues one POST; a 200
response returns `True` and sets `ha_connected = True`; any other status
or an exception draws an error banner (shown for one second) and, if a
retry remains, sleeps one further second of spacing before the next
attempt. Exhausting the loop sets `ha_connected = False` and returns
`False`. The outcome of attempt `i` is given by `outcome i`. -/

/-- Observable result of a `call_ha_service` run: return value, the value
written to `ha_connected` (none = untouched, on the WiFi-guard early
return), number of POST attempts, number of error banners shown, and the
number of one-second inter-attempt spacing sleeps. -/
structure CallRes where
  result : Bool
  haSet : Option Bool
  attempts : Nat
  banners : Nat
  spacingSleeps : Nat
deriving DecidableEq

/-- The `while retries > 0` loop of `call_ha_service`, with `r` the
current value of `retries` and `i` the index of the next attempt. -/
def callLoop (outcome : Nat → Bool) : Nat → Nat → CallRes
  | 0, _ => { result := false, haSet := some false, attempts := 0, banners := 0,
              spacingSleeps := 0 }
  | r + 1, i =>
      if outcome i then
        { result := true, haSet := some true, attempts := 1, banners := 0,
          spacingSleeps := 0 }
      else
        let rest := callLoop outcome r (i + 1)
        { result := rest.result, haSet := rest.haSet,
          attempts := rest.attempts + 1, banners := rest.banners + 1,
          spacingSleeps := rest.spacingSleeps + (if 0 < r then 1 else 0) }

/-- `call_ha_service` (lines 158-219): early `return False` when the WiFi
check fails (leaving `ha_connected` untouched), otherwise the retry loop
with `retries = 3`. -/
def call_ha_service (wifiOk : Bool) (outcome : Nat → Bool) : CallRes :=
  if wifiOk then callLoop outcome 3 0
  else { result := false, haSet := none, attempts := 0, banners := 0,
         spacingSleeps := 0 }

/-! ## Brightness persistence (lines 920-940)

The stored file content is embedded as `Option (Option ℚ)`:
`none` = the open/parse/float conversion raised (file absent or corrupt),
`some none` = valid JSON object without a `brightness` key,
`some (some v)` = valid record holding the float `v`. -/

/-- `load_brightness` (lines 930-940): returns
`float(data.get('brightness', DEFAULT_BRIGHTNESS))` on success and falls
back to `DEFAULT_BRIGHTNESS` on any exception. No range check is applied
to a successfully parsed value. -/
def load_brightness : Option (Option ℚ) → ℚ
  | none => DEFAULT_BRIGHTNESS
  | some none => DEFAULT_BRIGHTNESS
  | some (some v) => v

/-- `handle_brightness_control` (lines 990-1006) X/Y adjustment: up clamps
at 1.0, down clamps at `MIN_BRIGHTNESS`. -/
def adjust_brightness (up : Bool) (current_brightness : ℚ) : ℚ :=
  if up then min 1 (current_brightness + BRIGHTNESS_STEP)
  else max MIN_BRIGHTNESS (current_brightness - BRIGHTNESS_STEP)

/-! ## Album-art chunk gate in the main loop (lines 1094-1122)

On each tick of the main loop, the sleeping branch and the sleep-timeout
branch `continue` before the art-processing check; otherwise
`process_album_art` runs only if `album_art_state == ALBUM_ART_DOWNLOADING`
and none of the four buttons reads low (pressed). -/

/-- The per-tick inputs that decide whether an art chunk is processed. -/
structure ArtGateIn where
  is_sleeping : Bool
  sleepTimeoutElapsed : Bool
  album_art_state : Nat
  aDown : Bool
  bDown : Bool
  xDown : Bool
  yDown : Bool
deriving DecidableEq

/-- Whether the tick described by `i` calls `process_album_art`
(lines 1094-1122). -/
def tick_processes_art (i : ArtGateIn) : Bool :=
  if i.is_sleeping then false
  else if i.sleepTimeoutElapsed then false
  else if i.album_art_state = ALBUM_ART_DOWNLOADING ∧
          ¬(i.aDown = true ∨ i.bDown = true ∨ i.xDown = true ∨ i.yDown = true) then
    true
  else false

/-! ### Claim C4 -/

/-- Claim C4: for every successful poll in Main mode, a redraw occurs if
and only if the newly fetched snapshot is structurally unequal to the
previously rendered one; in particular an identical consecutive snapshot
triggers zero redraws and a snapshot differing only in the volume triggers
exactly one redraw. -/
theorem redraw_iff_snapshot_changed :
    (∀ (prev : Option PlaybackSnapshot) (s : PlaybackSnapshot),
        (poll_update prev (some s)).2 = if some s = prev then 0 else 1) ∧
    (poll_update (some snapPlaying42) (some snapPlaying42)).2 = 0 ∧
    (poll_update (some snapPlaying42) (some snapPlaying45)).2 = 1 := by
  refine ⟨fun prev s => ?_, ?_, ?_⟩
  · simp only [poll_update]
    split <;> rfl
  · simp [poll_update]
  · norm_num [poll_update, snapPlaying45, snapPlaying42]

/-! ### Claim C9 -/

/-- Claim C9: `get_sonos_state` returns `None` and issues no states
request whenever no speaker has been committed as the active target
(`current_speaker = none`), for every WiFi-check result and every would-be
fetch outcome. -/
theorem poll_state_none_without_speaker :
    ∀ (wifiOk : Bool) (fetch : Option PlaybackSnapshot),
      get_sonos_state wifiOk none fetch = (none, false) := by
  intro wifiOk fetch
  simp [get_sonos_state, speakerFalsy]

/-! ### Claim C7 -/

/-- Claim C7 counterexample: a well-formed stored record holding the
float 2.0 is returned as-is by `load_brightness`, so the brightness in
effect after load is not always within [0.25, 1.0]. -/
theorem load_brightness_no_range_check :
    load_brightness (some (some 2)) = 2 ∧ ¬(load_brightness (some (some 2)) ≤ 1) := by
  constructor
  · rfl
  · rw [load_brightness]
    norm_num

/-- Claim C7 (amended): `load_brightness` falls back to the documented
default 1.0 (which lies in [0.25, 1.0]) when the stored record is absent,
corrupt, or lacks the brightness key, but applies no range check to a
well-formed stored float, which is returned unchanged. -/
theorem load_brightness_fallback_semantics :
    load_brightness none = DEFAULT_BRIGHTNESS ∧
    load_brightness (some none) = DEFAULT_BRIGHTNESS ∧
    (∀ v : ℚ, load_brightness (some (some v)) = v) ∧
    MIN_BRIGHTNESS ≤ DEFAULT_BRIGHTNESS ∧ DEFAULT_BRIGHTNESS ≤ 1 := by
  refine ⟨rfl, rfl, fun v => rfl, ?_, ?_⟩ <;>
    simp [MIN_BRIGHTNESS, DEFAULT_BRIGHTNESS] <;> norm_num

/-! ### Claim C8 -/

/-- Claim C8: on every tick on which any button is held down, album-art
chunk processing is skipped entirely; and a chunk is processed only on
ticks with the pipeline in `ALBUM_ART_DOWNLOADING` and no button held. -/
theorem art_chunk_gate (i : ArtGateIn) :
    ((i.aDown = true ∨ i.bDown = true ∨ i.xDown = true ∨ i.yDown = true) →
        tick_processes_art i = false) ∧
    (tick_processes_art i = true →
        i.album_art_state = ALBUM_ART_DOWNLOADING ∧ i.aDown = false ∧
        i.bDown = false ∧ i.xDown = false ∧ i.yDown = false) := by
  constructor
  · intro hheld
    simp only [tick_processes_art]
    split
    · rfl
    · split
      · rfl
      · split
        · rename_i h
          exact absurd hheld h.2
        · rfl
  · intro htrue
    simp only [tick_processes_art] at htrue
    split at htrue
    · cases htrue
    · split at htrue
      · cases htrue
      · split at htrue
        · rename_i hcond
          obtain ⟨hdl, hnot⟩ := hcond
          simp only [not_or, Bool.not_eq_true] at hnot
          exact ⟨hdl, hnot.1, hnot.2.1, hnot.2.2.1, hnot.2.2.2⟩
        · cases htrue

/-- Witness for `art_chunk_gate` at a concrete tick with the X button
held while a download is in flight. -/
theorem art_chunk_gate_witness :
    tick_processes_art
      { is_sleeping := false, sleepTimeoutElapsed := false,
        album_art_state := ALBUM_ART_DOWNLOADING,
        aDown := false, bDown := false, xDown := true, yDown := false } = false :=
  (art_chunk_gate _).1 (Or.inr (Or.inr (Or.inl rfl)))

/-! ### Claim C6 -/

/-- Claim C6: `call_ha_service` makes up to 3 attempts; when every attempt
fails it shows 3 error banners, sleeps the one-second inter-attempt
spacing twice (between consecutive attempts), returns `false` and sets
`ha_connected` to `false`; when attempt `k` is the first success it stops
there, returns `true` and sets `ha_connected` to `true`. -/
theorem send_command_retry_semantics (outcome : Nat → Bool) :
    (call_ha_service true outcome).attempts ≤ 3 ∧
    ((∀ i, i < 3 → outcome i = false) →
        call_ha_service true outcome =
          { result := false, haSet := some false, attempts := 3, banners := 3,
            spacingSleeps := 2 }) ∧
    (∀ k, k < 3 → (∀ i, i < k → outcome i = false) → outcome k = true →
        call_ha_service true outcome =
          { result := true, haSet := some true, attempts := k + 1, banners := k,
            spacingSleeps := k }) := by
  refine ⟨?_, ?_, ?_⟩
  · cases h0 : outcome 0 <;> cases h1 : outcome 1 <;> cases h2 : outcome 2 <;>
      simp [call_ha_service, callLoop, h0, h1, h2]
  · intro hall
    have h0 := hall 0 (by norm_num)
    have h1 := hall 1 (by norm_num)
    have h2 := hall 2 (by norm_num)
    simp [call_ha_service, callLoop, h0, h1, h2]
  · intro k hk hbefore hk'
    interval_cases k
    · simp [call_ha_service, callLoop, hk']
    · have h0 := hbefore 0 (by norm_num)
      simp [call_ha_service, callLoop, h0, hk']
    · have h0 := hbefore 0 (by norm_num)
      have h1 := hbefore 1 (by norm_num)
      simp [call_ha_service, callLoop, h0, h1, hk']

/-- Witness for `send_command_retry_semantics`: with every attempt
failing, the call returns false after 3 attempts, 3 banners and 2 spacing
sleeps, and flags the service unreachable. -/
theorem send_command_retry_witness :
    call_ha_service true (fun _ => false) =
      { result := false, haSet := some false, attempts := 3, banners := 3,
        spacingSleeps := 2 } :=
  (send_command_retry_semantics (fun _ => false)).2.1 (fun _ _ => rfl)

/-! ## Play-button press disambiguation (lines 1228-1251)

In Main mode with the Play button (A), each tick reads the pin:
while low (pressed) the handler records the press start in
`button_a_press_start` (sentinel 0 = not pressed), and once the elapsed
time reaches `LONG_PRESS_TIME` it fires the long-press action
(next track) exactly once, overwriting the start with the sentinel -1;
on high (released), a positive stored start fires the short-press action
(play/pause); the start is then reset to 0. Sampled timestamps are
rationals; one tick processes one sample. -/

/-- One Main-mode tick of the Play-button handler: given the stored
`button_a_press_start`, whether the pin reads low (pressed), and the
tick's `current_time`, returns the new `button_a_press_start` together
with (short-press actions fired, long-press actions fired) this tick. -/
def stepA (press_start : ℚ) (down : Bool) (t : ℚ) : ℚ × Nat × Nat :=
  if down then
    if press_start = 0 then (t, 0, 0)
    else if LONG_PRESS_TIME ≤ t - press_start ∧ 0 < press_start then (-1, 0, 1)
    else (press_start, 0, 0)
  else
    if 0 < press_start then (0, 1, 0) else (0, 0, 0)

/-- Run the Play-button handler over a list of (pressed?, timestamp)
samples, accumulating the fired short- and long-press actions. -/
def runA (press_start : ℚ) : List (Bool × ℚ) → ℚ × Nat × Nat
  | [] => (press_start, 0, 0)
  | (d, t) :: ticks =>
      let r := stepA press_start d t
      let k := runA r.1 ticks
      (k.1, r.2.1 + k.2.1, r.2.2 + k.2.2)

/-- Samples for a hold: the button reads low at every listed timestamp. -/
def heldList (ts : List ℚ) : List (Bool × ℚ) := ts.map fun t => (true, t)

theorem runA_append (press_start : ℚ) (l1 l2 : List (Bool × ℚ)) :
    runA press_start (l1 ++ l2) =
      ((runA (runA press_start l1).1 l2).1,
       (runA press_start l1).2.1 + (runA (runA press_start l1).1 l2).2.1,
       (runA press_start l1).2.2 + (runA (runA press_start l1).1 l2).2.2) := by
  induction l1 generalizing press_start with
  | nil => simp [runA]
  | cons hd tl ih =>
      obtain ⟨d, t⟩ := hd
      simp only [List.cons_append, runA, List.append_eq]
      rw [ih]
      simp [add_assoc]

theorem stepA_first (t : ℚ) : stepA 0 true t = (t, 0, 0) := by
  simp [stepA]

theorem stepA_held_keep (ps t : ℚ) (h0 : 0 < ps) (ht : t - ps < LONG_PRESS_TIME) :
    stepA ps true t = (ps, 0, 0) := by
  have h1 : ¬(ps = 0) := ne_of_gt h0
  have h2 : ¬(LONG_PRESS_TIME ≤ t - ps ∧ 0 < ps) := fun h => absurd h.1 (not_le.mpr ht)
  simp [stepA, h1, h2]

theorem stepA_long_fire (ps t : ℚ) (h0 : 0 < ps) (ht : LONG_PRESS_TIME ≤ t - ps) :
    stepA ps true t = (-1, 0, 1) := by
  have h1 : ¬(ps = 0) := ne_of_gt h0
  simp [stepA, h1, ht, h0]

theorem stepA_after_fire (t : ℚ) : stepA (-1) true t = (-1, 0, 0) := by
  have h1 : ¬((-1 : ℚ) = 0) := by norm_num
  have h2 : ¬(LONG_PRESS_TIME ≤ t - (-1) ∧ (0 : ℚ) < -1) := fun h => by
    have := h.2; norm_num at this
  simp [stepA, h1, h2]

theorem stepA_release_short (ps t : ℚ) (h0 : 0 < ps) :
    stepA ps false t = (0, 1, 0) := by
  simp [stepA, h0]

theorem stepA_release_after_fire (t : ℚ) : stepA (-1) false t = (0, 0, 0) := by
  have h : ¬((0 : ℚ) < -1) := by norm_num
  simp [stepA, h]

theorem runA_held_keep (t0 : ℚ) (h0 : 0 < t0) :
    ∀ ts : List ℚ, (∀ t ∈ ts, t - t0 < LONG_PRESS_TIME) →
      runA t0 (heldList ts) = (t0, 0, 0) := by
  intro ts
  induction ts with
  | nil => intro _; simp [heldList, runA]
  | cons t rest ih =>
      intro hall
      have ht : t - t0 < LONG_PRESS_TIME := hall t (List.mem_cons_self t rest)
      have hrest := ih fun u hu => hall u (List.mem_cons_of_mem t hu)
      simp only [heldList, List.map_cons, runA, stepA_held_keep t0 t h0 ht]
      simp only [heldList] at hrest
      rw [hrest]
      simp

theorem runA_held_after_fire :
    ∀ ts : List ℚ, runA (-1) (heldList ts) = (-1, 0, 0) := by
  intro ts
  induction ts with
  | nil => simp [heldList, runA]
  | cons t rest ih =>
      simp only [heldList, List.map_cons, runA, stepA_after_fire t]
      simp only [heldList] at ih
      rw [ih]
      simp

theorem runA_held_long (t0 : ℚ) (h0 : 0 < t0) :
    ∀ ts : List ℚ, (∃ t ∈ ts, LONG_PRESS_TIME ≤ t - t0) →
      runA t0 (heldList ts) = (-1, 0, 1) := by
  intro ts
  induction ts with
  | nil => rintro ⟨t, ht, -⟩; exact absurd ht (List.not_mem_nil t)
  | cons t rest ih =>
      rintro ⟨u, hu, hule⟩
      by_cases hle : LONG_PRESS_TIME ≤ t - t0
      · simp only [heldList, List.map_cons, runA, stepA_long_fire t0 t h0 hle]
        have hfired := runA_held_after_fire rest
        simp only [heldList] at hfired
        rw [hfired]
        simp
      · have htlt : t - t0 < LONG_PRESS_TIME := not_le.mp hle
        have hurest : u ∈ rest := by
          rcases List.mem_cons.mp hu with h | h
          · exact absurd (h ▸ hule) hle
          · exact h
        have hrest := ih ⟨u, hurest, hule⟩
        simp only [heldList, List.map_cons, runA, stepA_held_keep t0 t h0 htlt]
        simp only [heldList] at hrest
        rw [hrest]
        simp

/-! ### Claim C2 -/

/-- Claim C2: a Main-mode Play-button press episode consists of a first
sampled tick at time `t0 > 0` with the button down, further down ticks at
the times in `rest`, and a release tick at `tr`. If every sampled held
tick is within `LONG_PRESS_TIME` of the press start, exactly one
short-press (play/pause) action and zero long-press actions fire; if some
sampled held tick reaches `LONG_PRESS_TIME`, exactly one long-press
(next track) action and zero short-press actions fire. -/
theorem play_button_press_semantics (t0 : ℚ) (rest : List ℚ) (tr : ℚ) (h0 : 0 < t0) :
    ((∀ t ∈ rest, t - t0 < LONG_PRESS_TIME) →
        (runA 0 ((true, t0) :: (heldList rest ++ [(false, tr)]))).2 = (1, 0)) ∧
    ((∃ t ∈ rest, LONG_PRESS_TIME ≤ t - t0) →
        (runA 0 ((true, t0) :: (heldList rest ++ [(false, tr)]))).2 = (0, 1)) := by
  constructor
  · intro hall
    simp only [runA, stepA_first t0]
    rw [runA_append t0 (heldList rest) [(false, tr)],
        runA_held_keep t0 h0 rest hall]
    simp [runA, stepA_release_short t0 tr h0]
  · intro hex
    simp only [runA, stepA_first t0]
    rw [runA_append t0 (heldList rest) [(false, tr)],
        runA_held_long t0 h0 rest hex]
    simp [runA, stepA_release_after_fire tr]

/-- Witness for `play_button_press_semantics`: a press sampled at time 1,
still held at time 2 (elapsed 1 second reaches the 0.6-second threshold),
released at time 3, fires exactly one long-press and no short-press. -/
theorem play_button_press_witness :
    (runA 0 ((true, (1 : ℚ)) :: (heldList [2] ++ [(false, 3)]))).2 = (0, 1) :=
  (play_button_press_semantics 1 [2] 3 (by norm_num)).2
    ⟨2, List.mem_singleton.mpr rfl, by rw [LONG_PRESS_TIME]; norm_num⟩

/-! ## Album-art pipeline (lines 380-401, 655-712)

The pipeline's resources are made explicit: each `urequests.get(url,
stream=True)` opens a transfer with a fresh numeric id; closing a
transfer removes its id from `openXfers`, the list of currently open
transfers. `album_art_response` holds the id the global variable refers
to (it can keep referring to an already-closed transfer, as the source
never nulls it in `load_album_art`). `fileBytes` is the size of the
backing `album_art.jpg` artifact; `os.remove` resets it to 0. -/

/-- The album-art related globals of the source plus the explicit
resource ledger (`openXfers`, `nextId`). -/
structure ArtSt where
  album_art_state : Nat
  album_art_response : Option Nat
  openXfers : List Nat
  album_art_url : Option String
  fileBytes : Nat
  current_album_name : Option String
  current_album_art : Option (Nat × Nat)
  nextId : Nat
deriving DecidableEq

/-- Startup values of the album-art globals (lines 89-98, 1023-1031). -/
def initArt : ArtSt :=
  { album_art_state := ALBUM_ART_IDLE, album_art_response := none,
    openXfers := [], album_art_url := none, fileBytes := 0,
    current_album_name := none, current_album_art := none, nextId := 0 }

/-- `if album_art_response: album_art_response.close()`: closing the
referenced transfer removes it from the open-transfer ledger (closing an
already-closed transfer is a no-op). -/
def closeResp (s : ArtSt) : ArtSt :=
  match s.album_art_response with
  | none => s
  | some id => { s with openXfers := s.openXfers.erase id }

/-- `load_album_art(url, x, y)` (lines 655-678): close any existing
download, remove the existing art file, then start a new streaming GET.
`httpOk` tells whether `urequests.get` succeeds; on failure the except
branch sets the state back to `ALBUM_ART_IDLE` (the response variable is
left referencing the closed transfer). -/
def load_album_art (s : ArtSt) (url : String) (httpOk : Bool) : ArtSt :=
  let s1 := closeResp s
  let s2 := { s1 with fileBytes := 0 }
  if httpOk then
    { s2 with album_art_response := some s2.nextId,
              openXfers := s2.openXfers ++ [s2.nextId],
              nextId := s2.nextId + 1,
              album_art_url := some url,
              album_art_state := ALBUM_ART_DOWNLOADING }
  else { s2 with album_art_state := ALBUM_ART_IDLE }

/-- What the environment does on one `process_album_art` call:
`readChunk n` = `raw.read(4096)` returns `n` bytes (`n = 0` is the EOF
signal, after which the decode succeeds); `readEofDecodeFail` = EOF but
the decode raises; `readFail` = the read itself raises. -/
inductive ProcOutcome
  | readChunk (n : Nat)
  | readEofDecodeFail
  | readFail
deriving DecidableEq

/-- `process_album_art(x, y)` (lines 680-712): guarded by
`album_art_response and album_art_state == ALBUM_ART_DOWNLOADING`; a
non-empty chunk is appended to the file; EOF closes the transfer and
decodes (success transitions to `ALBUM_ART_READY`); any exception sets
`ALBUM_ART_IDLE` and closes the transfer if still referenced. -/
def process_album_art (s : ArtSt) (o : ProcOutcome) : ArtSt :=
  if s.album_art_response.isSome ∧ s.album_art_state = ALBUM_ART_DOWNLOADING then
    match o with
    | .readChunk n =>
        if n ≠ 0 then { s with fileBytes := s.fileBytes + n }
        else
          let s1 := closeResp s
          let s2 := { s1 with album_art_response := none }
          { s2 with current_album_art := some (20, 60),
                    album_art_state := ALBUM_ART_READY }
    | .readEofDecodeFail =>
        let s1 := closeResp s
        let s2 := { s1 with album_art_response := none }
        { s2 with album_art_state := ALBUM_ART_IDLE }
    | .readFail =>
        let s1 := { s with album_art_state := ALBUM_ART_IDLE }
        let s2 := closeResp s1
        { s2 with album_art_response := none }
  else s

/-- The album-art section of `draw_screen` (lines 380-401): on an album
name change, clear the current art, reset to `ALBUM_ART_IDLE`, store the
new name and, if an artwork URL is present, start a new download; with an
unchanged album, start a download only if the pipeline is idle, a URL is
present and no art is held. -/
def draw_screen_art (s : ArtSt) (newAlbum artUrl : Option String)
    (httpOk : Bool) : ArtSt :=
  if newAlbum ≠ s.current_album_name then
    let s1 := { s with current_album_art := none, album_art_url := none,
                       album_art_state := ALBUM_ART_IDLE,
                       current_album_name := newAlbum }
    match artUrl with
    | some u => load_album_art s1 u httpOk
    | none => s1
  else if s.album_art_state = ALBUM_ART_IDLE ∧ artUrl.isSome ∧
            s.current_album_art = none then
    load_album_art s (artUrl.getD "") httpOk
  else s

/-- One interaction with the art pipeline: either the `draw_screen` art
section runs (with the snapshot's album name and resolved artwork URL and
the HTTP outcome), or the main loop calls `process_album_art`. -/
inductive ArtOp
  | draw (newAlbum artUrl : Option String) (httpOk : Bool)
  | process (o : ProcOutcome)
deriving DecidableEq

/-- Apply one pipeline interaction. -/
def artStep (s : ArtSt) : ArtOp → ArtSt
  | .draw newAlbum artUrl httpOk => draw_screen_art s newAlbum artUrl httpOk
  | .process o => process_album_art s o

/-- Run the pipeline from the startup state. -/
def runArt (ops : List ArtOp) : ArtSt :=
  ops.foldl artStep initArt

/-- Resource invariant of the pipeline: the open-transfer ledger is
either empty or the single transfer referenced by `album_art_response`,
and every issued id is below `nextId`. -/
def ArtInv (s : ArtSt) : Prop :=
  (s.openXfers = [] ∨
    ∃ id, s.album_art_response = some id ∧ s.openXfers = [id]) ∧
  (∀ id, s.album_art_response = some id → id < s.nextId) ∧
  (∀ id ∈ s.openXfers, id < s.nextId)

@[simp] theorem closeResp_album_art_response (s : ArtSt) :
    (closeResp s).album_art_response = s.album_art_response := by
  unfold closeResp; split <;> simp_all

@[simp] theorem closeResp_nextId (s : ArtSt) :
    (closeResp s).nextId = s.nextId := by
  unfold closeResp; split <;> simp_all

@[simp] theorem closeResp_album_art_state (s : ArtSt) :
    (closeResp s).album_art_state = s.album_art_state := by
  unfold closeResp; split <;> simp_all

@[simp] theorem closeResp_fileBytes (s : ArtSt) :
    (closeResp s).fileBytes = s.fileBytes := by
  unfold closeResp; split <;> simp_all

@[simp] theorem closeResp_current_album_name (s : ArtSt) :
    (closeResp s).current_album_name = s.current_album_name := by
  unfold closeResp; split <;> simp_all

theorem closeResp_openXfers_nil (s : ArtSt) (hinv : ArtInv s) :
    (closeResp s).openXfers = [] := by
  rcases hinv.1 with h | ⟨id, hresp, hx⟩
  · unfold closeResp
    split <;> simp_all
  · simp [closeResp, hresp, hx, List.erase_cons]

theorem artInv_load (s : ArtSt) (u : String) (httpOk : Bool) (hinv : ArtInv s) :
    ArtInv (load_album_art s u httpOk) := by
  have hnil := closeResp_openXfers_nil s hinv
  cases httpOk with
  | true =>
      refine ⟨Or.inr ⟨s.nextId, ?_, ?_⟩, ?_, ?_⟩
      · simp [load_album_art]
      · simp [load_album_art, hnil]
      · intro id hid
        simp only [load_album_art, if_pos] at hid ⊢
        simp at hid ⊢
        omega
      · intro id hid
        simp only [load_album_art, if_pos] at hid ⊢
        simp [hnil] at hid ⊢
        omega
  | false =>
      refine ⟨Or.inl ?_, ?_, ?_⟩
      · simp [load_album_art, hnil]
      · intro id hid
        simp only [load_album_art] at hid ⊢
        simp at hid ⊢
        exact hinv.2.1 id hid
      · intro id hid
        simp only [load_album_art] at hid
        simp [hnil] at hid

theorem artInv_process (s : ArtSt) (o : ProcOutcome) (hinv : ArtInv s) :
    ArtInv (process_album_art s o) := by
  unfold process_album_art
  split
  · cases o with
    | readChunk n =>
        by_cases hn : n ≠ 0
        · simp only [if_pos hn]
          refine ⟨?_, ?_, ?_⟩ <;> simp only []
          · rcases hinv.1 with h | ⟨id, h1, h2⟩
            · exact Or.inl h
            · exact Or.inr ⟨id, h1, h2⟩
          · exact fun id hid => hinv.2.1 id hid
          · exact fun id hid => hinv.2.2 id hid
        · simp only [if_neg hn]
          refine ⟨Or.inl ?_, ?_, ?_⟩
          · simp [closeResp_openXfers_nil s hinv]
          · intro id hid; simp at hid
          · intro id hid
            simp [closeResp_openXfers_nil s hinv] at hid
    | readEofDecodeFail =>
        refine ⟨Or.inl ?_, ?_, ?_⟩
        · simp [closeResp_openXfers_nil s hinv]
        · intro id hid; simp at hid
        · intro id hid
          simp [closeResp_openXfers_nil s hinv] at hid
    | readFail =>
        have hinv1 : ArtInv { s with album_art_state := ALBUM_ART_IDLE } := hinv
        refine ⟨Or.inl ?_, ?_, ?_⟩
        · simp [closeResp_openXfers_nil _ hinv1]
        · intro id hid; simp at hid
        · intro id hid
          simp [closeResp_openXfers_nil _ hinv1] at hid
  · exact hinv

theorem artInv_draw (s : ArtSt) (a u : Option String) (ok : Bool) (hinv : ArtInv s) :
    ArtInv (draw_screen_art s a u ok) := by
  unfold draw_screen_art
  split
  · cases u with
    | some v => exact artInv_load _ _ _ hinv
    | none => exact hinv
  · split
    · apply artInv_load _ _ _ hinv
    · exact hinv

theorem artInv_runArt (ops : List ArtOp) : ArtInv (runArt ops) := by
  have hstep : ∀ (l : List ArtOp) (s : ArtSt), ArtInv s → ArtInv (l.foldl artStep s) := by
    intro l
    induction l with
    | nil => intro s h; exact h
    | cons op rest ih =>
        intro s h
        simp only [List.foldl_cons]
        apply ih
        cases op with
        | draw a u ok => exact artInv_draw s a u ok h
        | process o => exact artInv_process s o h
  refine hstep ops initArt ⟨Or.inl rfl, ?_, ?_⟩
  · intro id hid; simp [initArt] at hid
  · intro id hid; simp [initArt] at hid

/-! ### Claim C5 -/

/-- Claim C5: after any sequence of pipeline interactions at most one
transfer is open; and when a snapshot arrives whose album name differs
from the stored one while a download is in flight, the in-flight transfer
is closed, the partial file is discarded (`fileBytes = 0`), and a fresh
job (new transfer id, state `ALBUM_ART_DOWNLOADING`) is started. -/
theorem album_art_single_transfer (ops : List ArtOp) :
    (runArt ops).openXfers.length ≤ 1 ∧
    (∀ (id : Nat) (newAlbum : Option String) (u : String),
      (runArt ops).album_art_state = ALBUM_ART_DOWNLOADING →
      (runArt ops).album_art_response = some id →
      newAlbum ≠ (runArt ops).current_album_name →
      (draw_screen_art (runArt ops) newAlbum (some u) true).openXfers
          = [(runArt ops).nextId] ∧
      id ∉ (draw_screen_art (runArt ops) newAlbum (some u) true).openXfers ∧
      (draw_screen_art (runArt ops) newAlbum (some u) true).fileBytes = 0 ∧
      (draw_screen_art (runArt ops) newAlbum (some u) true).album_art_state
          = ALBUM_ART_DOWNLOADING ∧
      (draw_screen_art (runArt ops) newAlbum (some u) true).album_art_response
          = some (runArt ops).nextId ∧
      id ≠ (runArt ops).nextId) := by
  have hinv := artInv_runArt ops
  constructor
  · rcases hinv.1 with h | ⟨id, -, h⟩ <;> simp [h]
  · intro id newAlbum u hdl hresp hne
    have hidlt : id < (runArt ops).nextId := hinv.2.1 id hresp
    have hdraw : draw_screen_art (runArt ops) newAlbum (some u) true = load_album_art { runArt ops with current_album_art := none, album_art_url := none, album_art_state := ALBUM_ART_IDLE, current_album_name := newAlbum } u true := by
      unfold draw_screen_art
      rw [if_pos hne]
    have hclosed : (closeResp { runArt ops with current_album_art := none, album_art_url := none, album_art_state := ALBUM_ART_IDLE, current_album_name := newAlbum }).openXfers = [] := by
      rcases hinv.1 with h | ⟨id2, hr2, h2⟩
      · simp [closeResp, hresp, h]
      · have : id2 = id := by rw [hresp] at hr2; exact (Option.some_inj.mp hr2).symm
        subst this
        simp [closeResp, hresp, h2]
    rw [hdraw]
    refine ⟨?_, ?_, ?_, ?_, ?_, ?_⟩
    · simp [load_album_art, hclosed]
    · simp [load_album_art, hclosed]
      omega
    · simp [load_album_art]
    · simp [load_album_art]
    · simp [load_album_art]
    · omega

/-- Witness for `album_art_single_transfer`: after starting a download
for album A, a snapshot naming album B while the download is in flight
discards the partial file and closes the old transfer. -/
theorem album_art_single_transfer_witness :
    (draw_screen_art (runArt [ArtOp.draw (some "AlbumA") (some "http") true])
        (some "AlbumB") (some "http2") true).fileBytes = 0 ∧
    (0 : Nat) ∉ (draw_screen_art (runArt [ArtOp.draw (some "AlbumA") (some "http") true])
        (some "AlbumB") (some "http2") true).openXfers := by
  have h := (album_art_single_transfer [ArtOp.draw (some "AlbumA") (some "http") true]).2
      0 (some "AlbumB") "http2" (by decide) (by decide) (by decide)
  exact ⟨h.2.2.1, h.2.1⟩

/-! ## Sleep and wake (lines 609-641, 1094-1113)

`wake_device` restores the backlight to `current_brightness` and redraws
the screen of the active mode; in Main mode it polls the state and draws
only when the poll succeeds. The sleeping branch of the main loop then
additionally polls and draws a second time when `in_menu` is false. The
two poll results are parameters `poll1` (inside `wake_device`) and
`poll2` (in the loop's wake branch). -/

/-- The state consulted by the sleeping branch of the main loop. -/
structure WakeCtx where
  in_menu : Bool
  in_speaker_select : Bool
  in_brightness_screen : Bool
  current_brightness : ℚ
  poll1 : Option PlaybackSnapshot
  poll2 : Option PlaybackSnapshot
deriving DecidableEq

/-- Observable outcome of one sleeping-branch tick. -/
structure SleepTickOut where
  is_sleeping : Bool
  backlight : Option ℚ
  fullRedraws : Nat
deriving DecidableEq

/-- `wake_device` (lines 609-628): backlight := `current_brightness`;
redraw speaker-select, brightness or menu screen, else poll and draw the
main screen if the poll succeeds. Returns (backlight, redraw count). -/
def wake_device (w : WakeCtx) : ℚ × Nat :=
  (w.current_brightness,
    if w.in_speaker_select then 1
    else if w.in_brightness_screen then 1
    else if w.in_menu then 1
    else if w.poll1.isSome then 1 else 0)

/-- The sleeping branch of the main loop (lines 1094-1108): with any
button down, `wake_device` runs and then, when `in_menu` is false, the
state is polled again and drawn if the poll succeeds; with no button down
the device stays sleeping. -/
def sleeping_tick (w : WakeCtx) (anyButtonDown : Bool) : SleepTickOut :=
  if anyButtonDown then
    { is_sleeping := false, backlight := some (wake_device w).1,
      fullRedraws := (wake_device w).2 +
        (if ¬w.in_menu then (if w.poll2.isSome then 1 else 0) else 0) }
  else { is_sleeping := true, backlight := none, fullRedraws := 0 }

/-- The sleep-entry check at the top of an awake tick (lines 1111-1113):
`enter_sleep_mode` (backlight 0, `is_sleeping = True`) exactly when
`current_time - last_activity_time >= SLEEP_TIMEOUT`. -/
def awake_sleep_entry (now last_activity_time : ℚ) : SleepTickOut :=
  if SLEEP_TIMEOUT ≤ now - last_activity_time then
    { is_sleeping := true, backlight := some 0, fullRedraws := 0 }
  else { is_sleeping := false, backlight := none, fullRedraws := 0 }

/-! ### Claim C3 -/

/-- Claim C3 counterexample: waking from sleep in Main mode with both
polls succeeding performs two full redraws (one inside `wake_device`, one
in the loop's wake branch), not exactly one. -/
theorem wake_redraw_count_two :
    (sleeping_tick
      { in_menu := false, in_speaker_select := false,
        in_brightness_screen := false, current_brightness := 1,
        poll1 := some snapPlaying42, poll2 := some snapPlaying42 } true).fullRedraws = 2 ∧
    ¬(sleeping_tick
      { in_menu := false, in_speaker_select := false,
        in_brightness_screen := false, current_brightness := 1,
        poll1 := some snapPlaying42, poll2 := some snapPlaying42 } true).fullRedraws = 1 := by
  constructor
  · rfl
  · intro h
    simp [sleeping_tick, wake_device] at h

/-- Claim C3 (amended): an awake tick with no input for at least
`SLEEP_TIMEOUT` seconds enters sleep (backlight 0); any button down while
sleeping wakes the device and restores the backlight to the persisted
brightness; the wake redraws the pre-sleep screen exactly once when the
pre-sleep mode was Menu, SpeakerSelect or Brightness (all of which keep
`in_menu` set when reached from the menu), while in Main mode the state
is polled twice and each successful poll is drawn, giving between zero
and two full redraws (two when both polls succeed). -/
theorem sleep_wake_semantics :
    (∀ now la : ℚ, SLEEP_TIMEOUT ≤ now - la →
        awake_sleep_entry now la =
          { is_sleeping := true, backlight := some 0, fullRedraws := 0 }) ∧
    (∀ (w : WakeCtx), (sleeping_tick w true).is_sleeping = false ∧
        (sleeping_tick w true).backlight = some w.current_brightness) ∧
    (∀ (w : WakeCtx), w.in_menu = true → (sleeping_tick w true).fullRedraws = 1) ∧
    (∀ (w : WakeCtx), w.in_menu = false → w.in_speaker_select = false →
        w.in_brightness_screen = false →
        (sleeping_tick w true).fullRedraws =
          (if w.poll1.isSome then 1 else 0) + (if w.poll2.isSome then 1 else 0)) := by
  refine ⟨?_, ?_, ?_, ?_⟩
  · intro now la h
    simp [awake_sleep_entry, h]
  · intro w
    constructor <;> rfl
  · intro w hmenu
    simp [sleeping_tick, wake_device, hmenu]
  · intro w hmenu hsp hbr
    simp [sleeping_tick, wake_device, hmenu, hsp, hbr]

/-- Witness for `sleep_wake_semantics`: entering sleep after 60 seconds
of inactivity, and a Menu-mode wake performing exactly one redraw. -/
theorem sleep_wake_semantics_witness :
    awake_sleep_entry 100 10 =
      { is_sleeping := true, backlight := some 0, fullRedraws := 0 } ∧
    (sleeping_tick
      { in_menu := true, in_speaker_select := false, in_brightness_screen := false,
        current_brightness := 1, poll1 := none, poll2 := none } true).fullRedraws = 1 := by
  constructor
  · exact sleep_wake_semantics.1 100 10 (by rw [SLEEP_TIMEOUT]; norm_num)
  · exact sleep_wake_semantics.2.2.1 _ rfl

/-! ## Mode flags, menu and speaker cursors (lines 564-598, 894-918, 1076-1266)

The UI mode is represented in the source by the three booleans `in_menu`,
`in_speaker_select` and `in_brightness_screen` plus `is_sleeping`; the
main loop dispatches button handling on them with an if/elif chain
(speaker-select first, then brightness, then menu, then the main screen).
One `TickIn` is one pass of the loop: the B-release transition (lines
1164-1189), then routing of the A/X/Y buttons that read low, in the
source's order A, X, Y. The result of `get_available_speakers` (the
repopulated speaker list, empty meaning failure) is the tick's `fetch`
parameter. -/

/-- The four logical buttons. -/
inductive Btn
  | A
  | B
  | X
  | Y
deriving DecidableEq

/-- The mode/cursor-related globals of the source. -/
structure SysState where
  in_menu : Bool
  in_speaker_select : Bool
  in_brightness_screen : Bool
  is_sleeping : Bool
  current_menu_index : Nat
  current_speaker_index : Nat
  available_speakers : List String
  current_speaker : Option String
deriving DecidableEq

/-- Environment inputs of one main-loop tick: whether the B button was
released after a short press this tick, the raw down state of the four
pins, the speaker list a `get_available_speakers` call would produce
(empty = failure), and whether the inactivity timeout has elapsed. -/
structure TickIn where
  bRelease : Bool
  bDown : Bool
  aDown : Bool
  xDown : Bool
  yDown : Bool
  fetch : List String
  sleepTimeoutElapsed : Bool
deriving DecidableEq

/-- `handle_speaker_select` (lines 894-918): X/Y move the cursor modulo
the list length (Python's modulo of a negative is non-negative, so
`(i - 1) % n` is `(i + n - 1) % n`); A commits the speaker under the
cursor and clears both `in_speaker_select` and `in_menu`; B clears
`in_speaker_select`. -/
def handle_speaker_select (s : SysState) : Btn → SysState
  | .X =>
      if 0 < s.available_speakers.length then
        { s with current_speaker_index :=
            (s.current_speaker_index + s.available_speakers.length - 1) %
              s.available_speakers.length }
      else s
  | .Y =>
      if 0 < s.available_speakers.length then
        { s with current_speaker_index :=
            (s.current_speaker_index + 1) % s.available_speakers.length }
      else s
  | .A =>
      if 0 < s.available_speakers.length then
        { s with current_speaker := s.available_speakers.get? s.current_speaker_index,
                 in_speaker_select := false, in_menu := false }
      else s
  | .B => { s with in_speaker_select := false }

/-- `handle_menu_navigation` (lines 564-598): X/Y move the menu cursor
modulo `len(MENU_ITEMS)`; A selects the item under the cursor
("Select Speaker" enters speaker select when the fetch succeeds,
"Brightness" enters the brightness screen, "Exit Menu" leaves the menu);
B leaves the menu. -/
def handle_menu_navigation (s : SysState) (b : Btn) (fetch : List String) : SysState :=
  match b with
  | .X => { s with current_menu_index :=
      (s.current_menu_index + MENU_ITEMS.length - 1) % MENU_ITEMS.length }
  | .Y => { s with current_menu_index :=
      (s.current_menu_index + 1) % MENU_ITEMS.length }
  | .A =>
      if MENU_ITEMS.getD s.current_menu_index "" = "Select Speaker" then
        if fetch ≠ [] then
          { s with available_speakers := fetch, in_speaker_select := true }
        else s
      else if MENU_ITEMS.getD s.current_menu_index "" = "Brightness" then
        { s with in_brightness_screen := true }
      else if MENU_ITEMS.getD s.current_menu_index "" = "Exit Menu" then
        { s with in_menu := false }
      else s
  | .B => { s with in_menu := false }

/-- The B-release transition of the main loop (lines 1164-1189): from the
main screen enter the menu at index 0; from speaker select or the
brightness screen drop back (only the respective flag is cleared); from
the menu exit to the main screen. -/
def b_release_step (s : SysState) : SysState :=
  if s.in_menu = false ∧ s.in_speaker_select = false ∧ s.in_brightness_screen = false then
    { s with in_menu := true, current_menu_index := 0 }
  else if s.in_speaker_select then { s with in_speaker_select := false }
  else if s.in_brightness_screen then { s with in_brightness_screen := false }
  else { s with in_menu := false }

/-- One guarded handler call in the routing block: run the
speaker-select handler for `btn` when its pin reads low. -/
def route_btn_speaker (down : Bool) (btn : Btn) (s : SysState) : SysState :=
  if down then handle_speaker_select s btn else s

/-- One guarded handler call in the routing block: run the menu handler
for `btn` when its pin reads low. -/
def route_btn_menu (down : Bool) (btn : Btn) (f : List String) (s : SysState) : SysState :=
  if down then handle_menu_navigation s btn f else s

/-- Speaker-select routing (lines 1192-1204): the held buttons are
handled in source order A, X, Y. -/
def speaker_route (s : SysState) (i : TickIn) : SysState :=
  route_btn_speaker i.yDown Btn.Y
    (route_btn_speaker i.xDown Btn.X
      (route_btn_speaker i.aDown Btn.A s))

/-- Menu routing (lines 1214-1226): the held buttons are handled in
source order A, X, Y. -/
def menu_route (s : SysState) (i : TickIn) : SysState :=
  route_btn_menu i.yDown Btn.Y i.fetch
    (route_btn_menu i.xDown Btn.X i.fetch
      (route_btn_menu i.aDown Btn.A i.fetch s))

/-- The if/elif dispatch of the main loop (lines 1192-1265): speaker
select first, then the brightness screen (whose X/Y only adjust the
brightness value), then the menu, else the main playback screen (whose
A/X/Y only issue transport commands). -/
def awake_route (s : SysState) (i : TickIn) : SysState :=
  if s.in_speaker_select then speaker_route s i
  else if s.in_brightness_screen then s
  else if s.in_menu then menu_route s i
  else s

/-- One tick of the main loop (lines 1090-1266): the sleeping branch
wakes on any held button and skips everything else; an elapsed
inactivity timeout enters sleep and skips the rest; otherwise the
B-release transition runs first (lines 1164-1189 precede the routing
block) and the remaining buttons are routed on the flags it produced. -/
def tickStep (s : SysState) (i : TickIn) : SysState :=
  if s.is_sleeping then
    if i.aDown ∨ i.bDown ∨ i.xDown ∨ i.yDown then { s with is_sleeping := false }
    else s
  else if i.sleepTimeoutElapsed then { s with is_sleeping := true }
  else awake_route (if i.bRelease then b_release_step s else s) i

/-- Startup state once the initial speaker fetch returned `l0`
(lines 1019-1070): speaker select is active, everything else clear. -/
def initSys (l0 : List String) : SysState :=
  { in_menu := false, in_speaker_select := true, in_brightness_screen := false,
    is_sleeping := false, current_menu_index := 0, current_speaker_index := 0,
    available_speakers := l0, current_speaker := none }

/-- Run the loop from startup over a sequence of ticks. -/
def runSys (l0 : List String) (ticks : List TickIn) : SysState :=
  ticks.foldl tickStep (initSys l0)

/-- The five mutually-exclusive dispatch guards of the loop, in dispatch
order: sleeping, speaker select, brightness, menu, main. -/
def dispatchGuards (s : SysState) : List Bool :=
  [s.is_sleeping,
   !s.is_sleeping && s.in_speaker_select,
   !s.is_sleeping && !s.in_speaker_select && s.in_brightness_screen,
   !s.is_sleeping && !s.in_speaker_select && !s.in_brightness_screen && s.in_menu,
   !s.is_sleeping && !s.in_speaker_select && !s.in_brightness_screen && !s.in_menu]

/-- The speaker-select flag and the brightness flag never hold together. -/
def ModeExcl (s : SysState) : Prop :=
  s.in_speaker_select = true → s.in_brightness_screen = false

theorem guards_count_one (s : SysState) : (dispatchGuards s).count true = 1 := by
  obtain ⟨m, sp, br, sl, mi, si, av, cs⟩ := s
  cases m <;> cases sp <;> cases br <;> cases sl <;> rfl

theorem modeExcl_of_sp_false (s : SysState) (hsp : s.in_speaker_select = false) :
    ModeExcl s := by
  intro hc
  rw [hsp] at hc
  cases hc

theorem modeExcl_b_release (s : SysState) (h : ModeExcl s) :
    ModeExcl (b_release_step s) := by
  unfold b_release_step
  split
  · exact h
  · split
    · intro hc; simp at hc
    · split
      · intro _; rfl
      · exact h

theorem modeExcl_hss (s : SysState) (b : Btn) (h : ModeExcl s) :
    ModeExcl (handle_speaker_select s b) := by
  cases b with
  | A =>
      simp only [handle_speaker_select]
      split
      · intro hc; simp at hc
      · exact h
  | B => intro hc; simp [handle_speaker_select] at hc
  | X =>
      simp only [handle_speaker_select]
      split
      · exact h
      · exact h
  | Y =>
      simp only [handle_speaker_select]
      split
      · exact h
      · exact h

theorem modeExcl_hmn_A (s : SysState) (f : List String)
    (hsp : s.in_speaker_select = false) (hbr : s.in_brightness_screen = false) :
    ModeExcl (handle_menu_navigation s Btn.A f) := by
  simp only [handle_menu_navigation]
  split
  · split
    · intro _; exact hbr
    · exact modeExcl_of_sp_false s hsp
  · split
    · intro hc
      simp at hc
      exact absurd hc (by simp [hsp])
    · split
      · intro _; exact hbr
      · exact modeExcl_of_sp_false s hsp

theorem modeExcl_hmn_notA (s : SysState) (b : Btn) (f : List String)
    (hb : b ≠ Btn.A) (h : ModeExcl s) :
    ModeExcl (handle_menu_navigation s b f) := by
  cases b with
  | A => exact absurd rfl hb
  | B => exact h
  | X => exact h
  | Y => exact h

theorem modeExcl_route_btn_speaker (down : Bool) (btn : Btn) (s : SysState)
    (h : ModeExcl s) : ModeExcl (route_btn_speaker down btn s) := by
  unfold route_btn_speaker
  split
  · exact modeExcl_hss s btn h
  · exact h

theorem modeExcl_speaker_route (s : SysState) (i : TickIn) (h : ModeExcl s) :
    ModeExcl (speaker_route s i) :=
  modeExcl_route_btn_speaker _ _ _
    (modeExcl_route_btn_speaker _ _ _
      (modeExcl_route_btn_speaker _ _ _ h))

theorem modeExcl_route_btn_menu_notA (down : Bool) (btn : Btn) (f : List String)
    (s : SysState) (hb : btn ≠ Btn.A) (h : ModeExcl s) :
    ModeExcl (route_btn_menu down btn f s) := by
  unfold route_btn_menu
  split
  · exact modeExcl_hmn_notA s btn f hb h
  · exact h

theorem modeExcl_menu_route (s : SysState) (i : TickIn)
    (hsp : s.in_speaker_select = false) (hbr : s.in_brightness_screen = false) :
    ModeExcl (menu_route s i) := by
  have h2 : ModeExcl (route_btn_menu i.aDown Btn.A i.fetch s) := by
    unfold route_btn_menu
    split
    · exact modeExcl_hmn_A s i.fetch hsp hbr
    · exact modeExcl_of_sp_false s hsp
  exact modeExcl_route_btn_menu_notA _ _ _ _ (by simp)
    (modeExcl_route_btn_menu_notA _ _ _ _ (by simp) h2)

theorem modeExcl_awake_route (s : SysState) (i : TickIn) (h : ModeExcl s) :
    ModeExcl (awake_route s i) := by
  unfold awake_route
  split
  · exact modeExcl_speaker_route s i h
  · split
    · exact h
    · split
      · rename_i hnsp hnbr _
        exact modeExcl_menu_route s i (by simpa using hnsp) (by simpa using hnbr)
      · exact h

theorem modeExcl_tickStep (s : SysState) (i : TickIn) (h : ModeExcl s) :
    ModeExcl (tickStep s i) := by
  unfold tickStep
  split
  · split
    · exact h
    · exact h
  · split
    · exact h
    · apply modeExcl_awake_route
      split
      · exact modeExcl_b_release s h
      · exact h

theorem modeExcl_runSys (l0 : List String) (ticks : List TickIn) :
    ModeExcl (runSys l0 ticks) := by
  have hfold : ∀ (ts : List TickIn) (s : SysState), ModeExcl s →
      ModeExcl (ts.foldl tickStep s) := by
    intro ts
    induction ts with
    | nil => exact fun s h => h
    | cons t rest ih =>
        intro s h
        simp only [List.foldl_cons]
        exact ih _ (modeExcl_tickStep s t h)
  exact hfold ticks (initSys l0) (fun _ => rfl)

/-! ### Claim C1 -/

/-- Tick sequence for the C1 counterexample: commit the startup speaker,
open the menu with a B release, then select "Select Speaker" with a
successful fetch. -/
def cexTicksC1 : List TickIn :=
  [{ bRelease := false, bDown := false, aDown := true, xDown := false,
     yDown := false, fetch := [], sleepTimeoutElapsed := false },
   { bRelease := true, bDown := false, aDown := false, xDown := false,
     yDown := false, fetch := [], sleepTimeoutElapsed := false },
   { bRelease := false, bDown := false, aDown := true, xDown := false,
     yDown := false, fetch := ["p", "q"], sleepTimeoutElapsed := false }]

/-- Claim C1 counterexample: after selecting "Select Speaker" from the
menu, both `in_menu` and `in_speaker_select` are set, so the mode flags
are not mutually exclusive. -/
theorem mode_flags_not_mutually_exclusive :
    (runSys ["s1", "s2"] cexTicksC1).in_menu = true ∧
    (runSys ["s1", "s2"] cexTicksC1).in_speaker_select = true := by
  constructor <;> rfl

/-- Claim C1 (amended): the boolean mode flags of the source are not
mutually exclusive (entering speaker select or brightness from the menu
leaves `in_menu` set), but at every observation point of every tick
sequence exactly one of the loop's five dispatch guards (Sleep, then
SpeakerSelect, then Brightness, then Menu, then Main) holds, so exactly
one mode is active; moreover `in_speaker_select` and
`in_brightness_screen` never hold simultaneously. -/
theorem mode_dispatch_exactly_one (l0 : List String) (ticks : List TickIn) :
    (dispatchGuards (runSys l0 ticks)).count true = 1 ∧
    ¬((runSys l0 ticks).in_speaker_select = true ∧
      (runSys l0 ticks).in_brightness_screen = true) := by
  refine ⟨guards_count_one _, ?_⟩
  rintro ⟨h1, h2⟩
  have hx := modeExcl_runSys l0 ticks h1
  rw [hx] at h2
  cases h2

/-! ### Cursor bounds (Claim C10) -/

/-- Bounds invariant: the menu cursor is below the number of menu items
and the speaker cursor is below the length of the speaker list. -/
def CursorInv (s : SysState) : Prop :=
  s.current_menu_index < MENU_ITEMS.length ∧
  s.current_speaker_index < s.available_speakers.length

theorem cursorInv_hss (s : SysState) (b : Btn) (h : CursorInv s) :
    CursorInv (handle_speaker_select s b) ∧
    (handle_speaker_select s b).available_speakers = s.available_speakers := by
  cases b with
  | A =>
      simp only [handle_speaker_select]
      split
      · exact ⟨h, rfl⟩
      · exact ⟨h, rfl⟩
  | B => exact ⟨h, rfl⟩
  | X =>
      simp only [handle_speaker_select]
      split
      · rename_i hlen
        exact ⟨⟨h.1, Nat.mod_lt _ hlen⟩, rfl⟩
      · exact ⟨h, rfl⟩
  | Y =>
      simp only [handle_speaker_select]
      split
      · rename_i hlen
        exact ⟨⟨h.1, Nat.mod_lt _ hlen⟩, rfl⟩
      · exact ⟨h, rfl⟩

theorem cursorInv_hmn_A (s : SysState) (f : List String)
    (h : CursorInv s) (hf : f = [] ∨ s.available_speakers.length ≤ f.length) :
    CursorInv (handle_menu_navigation s Btn.A f) ∧
    ((handle_menu_navigation s Btn.A f).available_speakers = s.available_speakers ∨
     (f ≠ [] ∧ (handle_menu_navigation s Btn.A f).available_speakers = f)) := by
  simp only [handle_menu_navigation]
  split
  · split
    · rename_i hne
      rcases hf with hfe | hle
      · exact absurd hfe hne
      · exact ⟨⟨h.1, lt_of_lt_of_le h.2 hle⟩, Or.inr ⟨hne, rfl⟩⟩
    · exact ⟨h, Or.inl rfl⟩
  · split
    · exact ⟨h, Or.inl rfl⟩
    · split
      · exact ⟨h, Or.inl rfl⟩
      · exact ⟨h, Or.inl rfl⟩

theorem cursorInv_hmn_notA (s : SysState) (b : Btn) (f : List String)
    (hb : b ≠ Btn.A) (h : CursorInv s) :
    CursorInv (handle_menu_navigation s b f) ∧
    (handle_menu_navigation s b f).available_speakers = s.available_speakers := by
  cases b with
  | A => exact absurd rfl hb
  | B => exact ⟨h, rfl⟩
  | X =>
      refine ⟨⟨Nat.mod_lt _ (by simp [MENU_ITEMS]), h.2⟩, rfl⟩
  | Y =>
      refine ⟨⟨Nat.mod_lt _ (by simp [MENU_ITEMS]), h.2⟩, rfl⟩

theorem cursorInv_route_btn_speaker (d : Bool) (btn : Btn) (s : SysState)
    (h : CursorInv s) :
    CursorInv (route_btn_speaker d btn s) ∧
    (route_btn_speaker d btn s).available_speakers = s.available_speakers := by
  unfold route_btn_speaker
  split
  · exact cursorInv_hss s btn h
  · exact ⟨h, rfl⟩

theorem cursorInv_speaker_route (s : SysState) (i : TickIn) (h : CursorInv s) :
    CursorInv (speaker_route s i) ∧
    (speaker_route s i).available_speakers = s.available_speakers := by
  obtain ⟨h2, e2⟩ := cursorInv_route_btn_speaker i.aDown Btn.A s h
  obtain ⟨h3, e3⟩ := cursorInv_route_btn_speaker i.xDown Btn.X _ h2
  obtain ⟨h4, e4⟩ := cursorInv_route_btn_speaker i.yDown Btn.Y _ h3
  exact ⟨h4, e4.trans (e3.trans e2)⟩

theorem cursorInv_route_btn_menu_notA (d : Bool) (btn : Btn) (f : List String)
    (s : SysState) (hb : btn ≠ Btn.A) (h : CursorInv s) :
    CursorInv (route_btn_menu d btn f s) ∧
    (route_btn_menu d btn f s).available_speakers = s.available_speakers := by
  unfold route_btn_menu
  split
  · exact cursorInv_hmn_notA s btn f hb h
  · exact ⟨h, rfl⟩

theorem cursorInv_menu_route (s : SysState) (i : TickIn) (h : CursorInv s)
    (hf : i.fetch = [] ∨ s.available_speakers.length ≤ i.fetch.length) :
    CursorInv (menu_route s i) ∧
    ((menu_route s i).available_speakers = s.available_speakers ∨
     (i.fetch ≠ [] ∧ (menu_route s i).available_speakers = i.fetch)) := by
  have hstepA : CursorInv (route_btn_menu i.aDown Btn.A i.fetch s) ∧
      ((route_btn_menu i.aDown Btn.A i.fetch s).available_speakers = s.available_speakers ∨
       (i.fetch ≠ [] ∧
        (route_btn_menu i.aDown Btn.A i.fetch s).available_speakers = i.fetch)) := by
    unfold route_btn_menu
    split
    · exact cursorInv_hmn_A s i.fetch h hf
    · exact ⟨h, Or.inl rfl⟩
  obtain ⟨h2, e2⟩ := hstepA
  obtain ⟨h3, e3⟩ := cursorInv_route_btn_menu_notA i.xDown Btn.X i.fetch _ (by simp) h2
  obtain ⟨h4, e4⟩ := cursorInv_route_btn_menu_notA i.yDown Btn.Y i.fetch _ (by simp) h3
  refine ⟨h4, ?_⟩
  have efin := e4.trans e3
  rcases e2 with e2 | ⟨hne, e2⟩
  · exact Or.inl (efin.trans e2)
  · exact Or.inr ⟨hne, efin.trans e2⟩

theorem cursorInv_awake_route (s : SysState) (i : TickIn) (h : CursorInv s)
    (hf : i.fetch = [] ∨ s.available_speakers.length ≤ i.fetch.length) :
    CursorInv (awake_route s i) ∧
    ((awake_route s i).available_speakers = s.available_speakers ∨
     (i.fetch ≠ [] ∧ (awake_route s i).available_speakers = i.fetch)) := by
  unfold awake_route
  split
  · obtain ⟨h', e⟩ := cursorInv_speaker_route s i h
    exact ⟨h', Or.inl e⟩
  · split
    · exact ⟨h, Or.inl rfl⟩
    · split
      · exact cursorInv_menu_route s i h hf
      · exact ⟨h, Or.inl rfl⟩

theorem cursorInv_b_release (s : SysState) (h : CursorInv s) :
    CursorInv (b_release_step s) ∧
    (b_release_step s).available_speakers = s.available_speakers := by
  unfold b_release_step
  split
  · exact ⟨⟨by simp [MENU_ITEMS], h.2⟩, rfl⟩
  · split
    · exact ⟨h, rfl⟩
    · split
      · exact ⟨h, rfl⟩
      · exact ⟨h, rfl⟩

theorem cursorInv_tickStep (s : SysState) (i : TickIn) (h : CursorInv s)
    (hf : i.fetch = [] ∨ s.available_speakers.length ≤ i.fetch.length) :
    CursorInv (tickStep s i) ∧
    ((tickStep s i).available_speakers = s.available_speakers ∨
     (i.fetch ≠ [] ∧ (tickStep s i).available_speakers = i.fetch)) := by
  unfold tickStep
  split
  · split
    · exact ⟨h, Or.inl rfl⟩
    · exact ⟨h, Or.inl rfl⟩
  · split
    · exact ⟨h, Or.inl rfl⟩
    · split
      · obtain ⟨hb, eb⟩ := cursorInv_b_release s h
        have hf1 : i.fetch = [] ∨
            (b_release_step s).available_speakers.length ≤ i.fetch.length := by
          rw [eb]; exact hf
        obtain ⟨h', e'⟩ := cursorInv_awake_route _ i hb hf1
        refine ⟨h', ?_⟩
        rcases e' with e' | ⟨hne, e'⟩
        · exact Or.inl (e'.trans eb)
        · exact Or.inr ⟨hne, e'⟩
      · exact cursorInv_awake_route s i h hf

/-- The lengths of the successful speaker fetches carried by a tick
sequence, in order (failed fetches, i.e. empty lists, are skipped). -/
def fetchLens (ticks : List TickIn) : List Nat :=
  ticks.filterMap fun i => if i.fetch = [] then none else some i.fetch.length

theorem fetchLens_cons_empty (t : TickIn) (rest : List TickIn)
    (hfe : t.fetch = []) : fetchLens (t :: rest) = fetchLens rest := by
  simp [fetchLens, hfe]

theorem fetchLens_cons_ne (t : TickIn) (rest : List TickIn)
    (hfe : t.fetch ≠ []) :
    fetchLens (t :: rest) = t.fetch.length :: fetchLens rest := by
  simp [fetchLens, hfe]

theorem cursorInv_fold (ts : List TickIn) :
    ∀ s : SysState, CursorInv s →
      (∀ n ∈ fetchLens ts, s.available_speakers.length ≤ n) →
      List.Sorted (· ≤ ·) (fetchLens ts) →
      CursorInv (ts.foldl tickStep s) := by
  induction ts with
  | nil => exact fun s h _ _ => h
  | cons t rest ih =>
      intro s h hall hsorted
      have hf : t.fetch = [] ∨ s.available_speakers.length ≤ t.fetch.length := by
        by_cases hfe : t.fetch = []
        · exact Or.inl hfe
        · refine Or.inr (hall _ ?_)
          rw [fetchLens_cons_ne t rest hfe]
          exact List.mem_cons_self _ _
      obtain ⟨h', hsp⟩ := cursorInv_tickStep s t h hf
      simp only [List.foldl_cons]
      by_cases hfe : t.fetch = []
      · have hlens := fetchLens_cons_empty t rest hfe
        apply ih _ h'
        · intro n hn
          rcases hsp with he | ⟨hne, -⟩
          · rw [he]
            exact hall n (by rw [hlens]; exact hn)
          · exact absurd hfe hne
        · rwa [hlens] at hsorted
      · have hlens := fetchLens_cons_ne t rest hfe
        rw [hlens] at hsorted
        have hs := List.sorted_cons.mp hsorted
        apply ih _ h'
        · intro n hn
          rcases hsp with he | ⟨-, he⟩
          · rw [he]
            exact hall n (by rw [hlens]; exact List.mem_cons_of_mem _ hn)
          · rw [he]
            exact hs.1 n hn
        · exact hs.2

/-- Claim C10 (amended): the menu cursor always stays within
[0, number of menu items); the speaker cursor stays within
[0, number of available speakers) provided the speaker list is never
repopulated with a shorter list — formally, the initial length followed
by the lengths of the successful fetches is non-decreasing (in
particular when the list is fetched once and never repopulated). The
unamended claim fails when a later fetch shrinks the list, because the
cursor is not re-clamped. -/
theorem cursor_bounds (l0 : List String) (ticks : List TickIn)
    (h0 : l0 ≠ [])
    (hmono : List.Sorted (· ≤ ·) (l0.length :: fetchLens ticks)) :
    (runSys l0 ticks).current_menu_index < MENU_ITEMS.length ∧
    (runSys l0 ticks).current_speaker_index <
      (runSys l0 ticks).available_speakers.length := by
  have hs := List.sorted_cons.mp hmono
  exact cursorInv_fold ticks (initSys l0)
    ⟨by simp [initSys, MENU_ITEMS], by simpa [initSys] using List.length_pos.mpr h0⟩
    hs.1 hs.2

/-- Witness for `cursor_bounds`: one speaker, one down-navigation tick
with no refetch. -/
theorem cursor_bounds_witness :
    (runSys ["kitchen"]
        [{ bRelease := false, bDown := false, aDown := false, xDown := false,
           yDown := true, fetch := [], sleepTimeoutElapsed := false }]).current_menu_index
        < MENU_ITEMS.length ∧
    (runSys ["kitchen"]
        [{ bRelease := false, bDown := false, aDown := false, xDown := false,
           yDown := true, fetch := [], sleepTimeoutElapsed := false }]).current_speaker_index
        < (runSys ["kitchen"]
        [{ bRelease := false, bDown := false, aDown := false, xDown := false,
           yDown := true, fetch := [], sleepTimeoutElapsed := false }]).available_speakers.length :=
  cursor_bounds ["kitchen"] _ (by simp) (by simp [fetchLens])

/-- Tick sequence for the C10 counterexample: navigate to the fifth
speaker, commit it, reopen the menu, then re-enter speaker select with a
fetch that now returns only two speakers. -/
def cexTicksC10 : List TickIn :=
  [{ bRelease := false, bDown := false, aDown := false, xDown := false,
     yDown := true, fetch := [], sleepTimeoutElapsed := false },
   { bRelease := false, bDown := false, aDown := false, xDown := false,
     yDown := true, fetch := [], sleepTimeoutElapsed := false },
   { bRelease := false, bDown := false, aDown := false, xDown := false,
     yDown := true, fetch := [], sleepTimeoutElapsed := false },
   { bRelease := false, bDown := false, aDown := false, xDown := false,
     yDown := true, fetch := [], sleepTimeoutElapsed := false },
   { bRelease := false, bDown := false, aDown := true, xDown := false,
     yDown := false, fetch := [], sleepTimeoutElapsed := false },
   { bRelease := true, bDown := false, aDown := false, xDown := false,
     yDown := false, fetch := [], sleepTimeoutElapsed := false },
   { bRelease := false, bDown := false, aDown := true, xDown := false,
     yDown := false, fetch := ["p", "q"], sleepTimeoutElapsed := false }]

/-- Claim C10 counterexample: after re-entering speaker select with a
shrunken speaker list, the speaker cursor (4) is outside the bounds of
the non-empty two-element list, so the in-bounds claim fails; the next
select access `available_speakers[current_speaker_index]` would raise an
IndexError. -/
theorem speaker_cursor_out_of_bounds :
    (runSys ["a", "b", "c", "d", "e"] cexTicksC10).available_speakers = ["p", "q"] ∧
    (runSys ["a", "b", "c", "d", "e"] cexTicksC10).current_speaker_index = 4 ∧
    ¬((runSys ["a", "b", "c", "d", "e"] cexTicksC10).current_speaker_index <
      (runSys ["a", "b", "c", "d", "e"] cexTicksC10).available_speakers.length) := by
  refine ⟨rfl, rfl, ?_⟩
  intro hlt
  have h4 : (runSys ["a", "b", "c", "d", "e"] cexTicksC10).current_speaker_index = 4 := rfl
  have h2 : (runSys ["a", "b", "c", "d", "e"] cexTicksC10).available_speakers.length = 2 := rfl
  rw [h4, h2] at hlt
  omega
